import Mathlib

/-!
Shallow embedding of the MasterCard-Currency-Exchange-Rates service
(src/frankfurter.js, src/visa-scraper.js, src/amex-scraper.js) in Lean 4,
together with theorems settling the specification claims.

Network transport is modelled by passing the provider's (already decoded)
response data as an explicit argument; time is an explicit natural-number
millisecond clock; the per-provider caches are explicit state values for
the key under consideration.  JavaScript numbers that matter to the claims
are modelled as rationals, with an explicit `nan` constructor where a NaN
can flow out of `parseFloat`.
-/

namespace FxAgg

/-- Embedding of `getMidMarketRate` (src/frankfurter.js lines 12-60),
instrumented with the number of network calls (`axios.get` invocations)
performed on the success path.  `rates` is the numeric rate table of the
Frankfurter response for the requested date (`response.data.rates`):
the claims quantify over "the same provider response data", so the table
is an explicit argument.  Branch structure follows the source exactly:
same-currency shortcut (no call), direct EUR base (one call, `rates quote`),
inverse EUR quote (one call, `1 / rates base`), and the triangulated
cross-rate (one call fetching both legs, `rates quote / rates base`). -/
def getMidMarketRateN (rates : String → ℚ) (base quote : String) : ℚ × ℕ :=
  if base = quote then
    (1, 0)
  else if base = "EUR" then
    (rates quote, 1)
  else if quote = "EUR" then
    (1 / rates base, 1)
  else
    (rates quote / rates base, 1)

/-- The rate returned by `getMidMarketRate`, forgetting the network-call
count. -/
def getMidMarketRate (rates : String → ℚ) (base quote : String) : ℚ :=
  (getMidMarketRateN rates base quote).1

/-- C6: for every response table and every currency C, the reference-rate
resolver applied to the pair (C, C) returns exactly 1.0 and performs zero
network calls (src/frankfurter.js lines 14-17: the `base === quote` branch
returns before any `axios.get`). -/
theorem mid_same_currency_one_no_calls (rates : String → ℚ) (c : String) :
    getMidMarketRateN rates c c = (1, 0) := by
  simp [getMidMarketRateN]

/-- C5: triangulation consistency.  For currencies A, B both different from
the reference currency EUR, and any response table assigning A a nonzero
rate, `resolve(d, A, B) = resolve(d, ref, B) / resolve(d, ref, A)`.
The nonzero hypothesis is needed only for the degenerate case A = B, where
the left side is the same-currency shortcut 1.0. -/
theorem mid_triangulation (rates : String → ℚ) (a b : String)
    (ha : a ≠ "EUR") (hb : b ≠ "EUR") (hra : rates a ≠ 0) :
    getMidMarketRate rates a b =
      getMidMarketRate rates "EUR" b / getMidMarketRate rates "EUR" a := by
  by_cases hab : a = b
  · subst hab
    simp [getMidMarketRate, getMidMarketRateN, ha, (Ne.symm ha), div_self hra]
  · simp [getMidMarketRate, getMidMarketRateN, ha, hb, hab,
      (Ne.symm ha), (Ne.symm hb)]

/-- Witness for C5 at a concrete input: rates USD = 2, rates JPY = 3. -/
theorem mid_triangulation_witness :
    getMidMarketRate (fun c => if c = "USD" then 2 else 3) "USD" "JPY" =
      getMidMarketRate (fun c => if c = "USD" then 2 else 3) "EUR" "JPY" /
        getMidMarketRate (fun c => if c = "USD" then 2 else 3) "EUR" "USD" :=
  mid_triangulation (fun c => if c = "USD" then 2 else 3) "USD" "JPY"
    (by decide) (by decide) (by decide)

/-! ## Series assembly

The three card-network series functions (`getMastercardSeries`,
`getVisaSeries`, `getAmexSeries`) are textually identical up to which
per-date rate function they call: enumerate every calendar day from
`startDate` to `endDate` inclusive, call the per-date function under
`try/catch`, and push the fetched value when it is a non-NaN number,
otherwise the last known good value (initially `null`).  Dates are
modelled as day numbers (`ℕ`); a per-date fetch result is
`Except Unit (Option ℚ)`: `.error ()` models a thrown error, `.ok none`
models a `null` or NaN result (both fail the
`typeof r === 'number' && !Number.isNaN(r)` test), `.ok (some r)` a
usable number. -/

/-- The list of calendar days from `s` to `e` inclusive, as built by the
`while (cursor <= end)` loops in all three series functions (and by the
labels loop of the `/api/history` handler); empty when `s > e`. -/
def dateRange (s e : ℕ) : List ℕ :=
  (List.range (e + 1 - s)).map (s + ·)

/-- Whether a per-date fetch result passes the
`typeof r === 'number' && !Number.isNaN(r)` test of the series loops. -/
def isGoodFetch (r : Except Unit (Option ℚ)) : Bool :=
  match r with
  | .ok (some _) => true
  | _ => false

/-- The shared series loop body (src/frankfurter.js lines 556-570,
src/visa-scraper.js lines 167-181, src/amex-scraper.js lines 243-257):
one entry is pushed per date; a good fetch updates `lastGood` and is
pushed, anything else (throw, `null`, NaN) pushes the current
`lastGood`. -/
def seriesLoop (fetch : ℕ → Except Unit (Option ℚ)) :
    List ℕ → Option ℚ → List (Option ℚ)
  | [], _ => []
  | d :: ds, lastGood =>
    match fetch d with
    | .ok (some r) => some r :: seriesLoop fetch ds (some r)
    | _ => lastGood :: seriesLoop fetch ds lastGood

/-- Embedding of `getMastercardSeries` (src/frankfurter.js lines 536-572),
with the per-date rate function `getMastercardRate d base quote` passed as
the explicit collaborator `fetch`. -/
def getMastercardSeries (fetch : ℕ → Except Unit (Option ℚ))
    (startDate endDate : ℕ) : List (Option ℚ) :=
  seriesLoop fetch (dateRange startDate endDate) none

/-- Embedding of `getVisaSeries` (src/visa-scraper.js lines 147-183),
identical in structure to `getMastercardSeries`. -/
def getVisaSeries (fetch : ℕ → Except Unit (Option ℚ))
    (startDate endDate : ℕ) : List (Option ℚ) :=
  seriesLoop fetch (dateRange startDate endDate) none

/-- Embedding of `getAmexSeries` (src/amex-scraper.js lines 223-259),
identical in structure to `getMastercardSeries`; `getAmexRate` never
throws, so its failures arrive as `.ok none`. -/
def getAmexSeries (fetch : ℕ → Except Unit (Option ℚ))
    (startDate endDate : ℕ) : List (Option ℚ) :=
  seriesLoop fetch (dateRange startDate endDate) none

/-- First available value of the mid map over the labels, as computed by
the `firstKnown` loop with `break` of the `/api/history` handler
(src/frankfurter.js lines 381-388). -/
def firstKnown (midMap : ℕ → Option ℚ) : List ℕ → Option ℚ
  | [] => none
  | d :: ds =>
    match midMap d with
    | some v => some v
    | none => firstKnown midMap ds

/-- The second loop of the mid-series assembly (src/frankfurter.js lines
389-396): walk the labels carrying `last`, overwrite it whenever the map
has the date, and push `last` for every label. -/
def carryForward (midMap : ℕ → Option ℚ) : List ℕ → Option ℚ → List (Option ℚ)
  | [], _ => []
  | d :: ds, last =>
    match midMap d with
    | some v => some v :: carryForward midMap ds (some v)
    | none => last :: carryForward midMap ds last

/-- Embedding of the `midSeries` assembly in the `/api/history` handler
(src/frankfurter.js lines 380-396): `last` is seeded with the FIRST known
value over the whole label range, so leading gaps are backfilled rather
than left `null`. -/
def buildMidSeries (midMap : ℕ → Option ℚ) (labels : List ℕ) :
    List (Option ℚ) :=
  carryForward midMap labels (firstKnown midMap labels)

theorem seriesLoop_length (fetch : ℕ → Except Unit (Option ℚ)) :
    ∀ (ds : List ℕ) (lastGood : Option ℚ),
      (seriesLoop fetch ds lastGood).length = ds.length := by
  intro ds
  induction ds with
  | nil => intro lastGood; rfl
  | cons d ds ih =>
    intro lastGood
    cases h : fetch d with
    | error e => simp [seriesLoop, h, ih]
    | ok o => cases o <;> simp [seriesLoop, h, ih]

theorem dateRange_length (s e : ℕ) : (dateRange s e).length = e + 1 - s := by
  simp [dateRange]

/-- C9: for every `startDate ≤ endDate`, each of the three card-network
series functions returns a list of exactly one entry per calendar day in
the inclusive range, regardless of the per-date fetch outcomes. -/
theorem series_length_invariant (fetch : ℕ → Except Unit (Option ℚ))
    (s e : ℕ) (h : s ≤ e) :
    (getMastercardSeries fetch s e).length = e - s + 1 ∧
      (getVisaSeries fetch s e).length = e - s + 1 ∧
      (getAmexSeries fetch s e).length = e - s + 1 := by
  have hlen : (seriesLoop fetch (dateRange s e) none).length = e - s + 1 := by
    rw [seriesLoop_length, dateRange_length]
    omega
  exact ⟨hlen, hlen, hlen⟩

/-- Witness for C9: days 3..7 with a fetch that always throws give a
series of length 5 for each provider. -/
theorem series_length_invariant_witness :
    (getMastercardSeries (fun _ => .error ()) 3 7).length = 7 - 3 + 1 ∧
      (getVisaSeries (fun _ => .error ()) 3 7).length = 7 - 3 + 1 ∧
      (getAmexSeries (fun _ => .error ()) 3 7).length = 7 - 3 + 1 :=
  series_length_invariant (fun _ => .error ()) 3 7 (by decide)

theorem seriesLoop_failing_start (fetch : ℕ → Except Unit (Option ℚ)) :
    ∀ (ds₁ ds₂ : List ℕ), (∀ d ∈ ds₁, isGoodFetch (fetch d) = false) →
      seriesLoop fetch (ds₁ ++ ds₂) none =
        ds₁.map (fun _ => (none : Option ℚ)) ++ seriesLoop fetch ds₂ none := by
  intro ds₁
  induction ds₁ with
  | nil => intro ds₂ _; rfl
  | cons d ds ih =>
    intro ds₂ h
    have hd := h d (List.mem_cons_self d ds)
    have hrest : ∀ x ∈ ds, isGoodFetch (fetch x) = false :=
      fun x hx => h x (List.mem_cons_of_mem d hx)
    cases hf : fetch d with
    | error e => simp [seriesLoop, hf, ih ds₂ hrest]
    | ok o =>
      cases o with
      | none => simp [seriesLoop, hf, ih ds₂ hrest]
      | some r => simp [isGoodFetch, hf] at hd

theorem firstKnown_absent_start (midMap : ℕ → Option ℚ) :
    ∀ (ds₁ ds₂ : List ℕ), (∀ d ∈ ds₁, midMap d = none) →
      firstKnown midMap (ds₁ ++ ds₂) = firstKnown midMap ds₂ := by
  intro ds₁
  induction ds₁ with
  | nil => intro ds₂ _; rfl
  | cons d ds ih =>
    intro ds₂ h
    have hd := h d (List.mem_cons_self d ds)
    have hrest : ∀ x ∈ ds, midMap x = none :=
      fun x hx => h x (List.mem_cons_of_mem d hx)
    simp [firstKnown, hd, ih ds₂ hrest]

theorem carryForward_absent_start (midMap : ℕ → Option ℚ) :
    ∀ (ds₁ ds₂ : List ℕ) (last : Option ℚ), (∀ d ∈ ds₁, midMap d = none) →
      carryForward midMap (ds₁ ++ ds₂) last =
        ds₁.map (fun _ => last) ++ carryForward midMap ds₂ last := by
  intro ds₁
  induction ds₁ with
  | nil => intro ds₂ last _; rfl
  | cons d ds ih =>
    intro ds₂ last h
    have hd := h d (List.mem_cons_self d ds)
    have hrest : ∀ x ∈ ds, midMap x = none :=
      fun x hx => h x (List.mem_cons_of_mem d hx)
    simp [carryForward, hd, ih ds₂ last hrest]

/-- C2 counterexample: with the mid map defined only on day 2 (value
0.90) over the five labels 0..4, the `/api/history` mid-series assembly
returns `[0.90, 0.90, 0.90, 0.90, 0.90]` — the positions before the first
successful date are backfilled with the first known value, not recorded as
`null` as the claim states. -/
theorem mid_series_backfills_leading_gap :
    buildMidSeries (fun d => if d = 2 then some ((9 : ℚ) / 10) else none)
        (dateRange 0 4) =
      [some ((9 : ℚ) / 10), some ((9 : ℚ) / 10), some ((9 : ℚ) / 10),
        some ((9 : ℚ) / 10), some ((9 : ℚ) / 10)] ∧
      (buildMidSeries (fun d => if d = 2 then some ((9 : ℚ) / 10) else none)
          (dateRange 0 4)).head? ≠ some none := by
  constructor
  · rfl
  · decide

/-- C2 amended: the leading-gap property holds for the card-network
series (every position whose prefix of dates all fail is `null`), while
the reference-rate (mid) series instead backfills every leading-gap
position with the first known value of the whole range. -/
theorem series_leading_gap_amended (fetch : ℕ → Except Unit (Option ℚ))
    (midMap : ℕ → Option ℚ) (ds₁ ds₂ : List ℕ)
    (h1 : ∀ d ∈ ds₁, isGoodFetch (fetch d) = false)
    (h2 : ∀ d ∈ ds₁, midMap d = none) :
    seriesLoop fetch (ds₁ ++ ds₂) none =
        ds₁.map (fun _ => (none : Option ℚ)) ++ seriesLoop fetch ds₂ none ∧
      buildMidSeries midMap (ds₁ ++ ds₂) =
        ds₁.map (fun _ => firstKnown midMap ds₂) ++ buildMidSeries midMap ds₂ := by
  refine ⟨seriesLoop_failing_start fetch ds₁ ds₂ h1, ?_⟩
  unfold buildMidSeries
  rw [firstKnown_absent_start midMap ds₁ ds₂ h2,
    carryForward_absent_start midMap ds₁ ds₂ (firstKnown midMap ds₂) h2]

/-- Witness for the amended C2 at the spec's example: failing days 0 and 1
followed by days 2..4, with the mid map known only on day 2. -/
theorem series_leading_gap_amended_witness :
    seriesLoop (fun d => if d = 2 then .ok (some ((9 : ℚ) / 10)) else .error ())
        ([0, 1] ++ [2, 3, 4]) none =
        [0, 1].map (fun _ => (none : Option ℚ)) ++
          seriesLoop
            (fun d => if d = 2 then .ok (some ((9 : ℚ) / 10)) else .error ())
            [2, 3, 4] none ∧
      buildMidSeries (fun d => if d = 2 then some ((9 : ℚ) / 10) else none)
          ([0, 1] ++ [2, 3, 4]) =
        [0, 1].map
            (fun _ =>
              firstKnown (fun d => if d = 2 then some ((9 : ℚ) / 10) else none)
                [2, 3, 4]) ++
          buildMidSeries
            (fun d => if d = 2 then some ((9 : ℚ) / 10) else none) [2, 3, 4] :=
  series_leading_gap_amended
    (fun d => if d = 2 then .ok (some ((9 : ℚ) / 10)) else .error ())
    (fun d => if d = 2 then some ((9 : ℚ) / 10) else none) [0, 1] [2, 3, 4]
    (by decide) (by decide)

/-! ## Mastercard provider (direct-conversion normalizer and cache)

`getMastercardRate` consults a per-key cache (key
`date|base|quote|amount`), treats an entry as present only while
`Date.now() - timestamp < CACHE_TTL`, and otherwise deletes it and calls
`getMastercardRateViaAPI`, caching and returning a non-null result and
throwing when the API helper returned `null`.  The model is per cache
key: `cacheEntry` is the `{value, timestamp}` record stored under the
requested key (or `none`), `now` is the millisecond clock, and the
decoded API response is the explicit argument `resp`. -/

/-- Cache TTL in milliseconds, `1000 * 60 * 60` (src/frankfurter.js line
453; the Visa and Amex modules use the same constant). -/
def CACHE_TTL : ℕ := 1000 * 60 * 60

/-- The `data` object of a Mastercard conversion-rates response.  A field
is `some q` when it is present, truthy and `parseFloat` yields the non-NaN
number `q`; it is `none` when absent, falsy, or unparseable (a NaN
`parseFloat` result makes the source skip the field exactly as if it were
absent, so no NaN can escape this normalizer). -/
structure MCData where
  crdhldBillAmt : Option ℚ
  conversionRate : Option ℚ

/-- Embedding of `getMastercardRateViaAPI` (src/frankfurter.js lines
472-514): `resp = none` models a transport error or a response without
`data` (every throw inside the `try` is caught and turned into `null`).
Preference order: converted total divided by amount when the total parses
and `amount > 0`; otherwise the stated per-unit `conversionRate`;
otherwise `null` (the internal parse error is caught). -/
def getMastercardRateViaAPI (resp : Option MCData) (amount : ℚ) : Option ℚ :=
  match resp with
  | none => none
  | some data =>
    match data.crdhldBillAmt with
    | some converted =>
      if 0 < amount then some (converted / amount)
      else
        match data.conversionRate with
        | some perUnit => some perUnit
        | none => none
    | none =>
      match data.conversionRate with
      | some perUnit => some perUnit
      | none => none

/-- Embedding of `getMastercardRate` (src/frankfurter.js lines 516-534)
for one cache key.  Returns the result (`.error ()` models the thrown
`Failed to fetch Mastercard rate from API`), whether the underlying API
fetch was invoked, and the cache entry for the key afterwards. -/
def getMastercardRate (now : ℕ) (cacheEntry : Option (ℚ × ℕ))
    (resp : Option MCData) (amount : ℚ) :
    Except Unit ℚ × Bool × Option (ℚ × ℕ) :=
  match cacheEntry with
  | some (value, timestamp) =>
    if now - timestamp < CACHE_TTL then (.ok value, false, cacheEntry)
    else
      match getMastercardRateViaAPI resp amount with
      | some apiRate => (.ok apiRate, true, some (apiRate, now))
      | none => (.error (), true, none)
  | none =>
    match getMastercardRateViaAPI resp amount with
    | some apiRate => (.ok apiRate, true, some (apiRate, now))
    | none => (.error (), true, none)

/-- C7: a value stored at time T is returned unchanged by a lookup at
T + 59 minutes without invoking the underlying fetch (and the entry is
kept), while a lookup at T + 61 minutes invokes the underlying fetch
again — the one-hour-old entry is treated as absent. -/
theorem mastercard_cache_ttl (value : ℚ) (t : ℕ) (resp : Option MCData)
    (amount : ℚ) :
    getMastercardRate (t + 59 * 60 * 1000) (some (value, t)) resp amount =
        (.ok value, false, some (value, t)) ∧
      (getMastercardRate (t + 61 * 60 * 1000) (some (value, t))
          resp amount).2.1 = true := by
  constructor
  · simp [getMastercardRate, CACHE_TTL]
  · cases h : getMastercardRateViaAPI resp amount with
    | none => simp [getMastercardRate, CACHE_TTL, h]
    | some r => simp [getMastercardRate, CACHE_TTL, h]

/-- C8: direct-conversion normalizer preference order.  With a parseable
converted total and `amount > 0` the rate is `convertedTotal / amount`;
with no usable converted total (absent, or `amount = 0`) it falls back to
the stated per-unit rate; with neither field parseable the single-rate
lookup throws. -/
theorem mastercard_preference_order (c p amount : ℚ)
    (cr : Option ℚ) (now : ℕ) (h : 0 < amount) :
    getMastercardRateViaAPI (some ⟨some c, cr⟩) amount = some (c / amount) ∧
      getMastercardRateViaAPI (some ⟨none, some p⟩) amount = some p ∧
      getMastercardRateViaAPI (some ⟨some c, some p⟩) 0 = some p ∧
      getMastercardRate now none (some ⟨none, none⟩) amount =
        (.error (), true, none) := by
  refine ⟨?_, rfl, rfl, rfl⟩
  simp [getMastercardRateViaAPI, h]

/-- Witness for C8 at the spec's example: convertedTotal 107.50 at amount
100 gives rate 1.075; fallback and failure cases at the same inputs. -/
theorem mastercard_preference_order_witness :
    getMastercardRateViaAPI (some ⟨some ((1075 : ℚ) / 10), some 2⟩) 100 =
        some ((1075 : ℚ) / 10 / 100) ∧
      getMastercardRateViaAPI (some ⟨none, some (2 : ℚ)⟩) 100 = some 2 ∧
      getMastercardRateViaAPI (some ⟨some ((1075 : ℚ) / 10), some 2⟩) 0 =
        some 2 ∧
      getMastercardRate 0 none (some ⟨none, none⟩) 100 =
        (.error (), true, none) :=
  mastercard_preference_order ((1075 : ℚ) / 10) 2 100 (some 2) 0 (by decide)

/-! ## Amex provider (percentage-variance normalizer and cache)

The raw response of the Amex ecbrates endpoint is a JSON array of
entries, each with a `settlementCurrency` and a `consumer` list of
`{submissionCurrencyCode, percentageVariance}` records.  The
`percentageVariance` field is a string; it is modelled by its JavaScript
truthiness together with its `parseFloat` result: `none` when the field
is absent or falsy (which makes the source skip the computation), `some
none` when it is truthy but `parseFloat` yields NaN, and `some (some v)`
when it parses to the number `v`.  A JavaScript number that may be NaN is
modelled by `JSNum`. -/

/-- A JavaScript number outcome: either NaN or an actual rational. -/
inductive JSNum where
  | nan : JSNum
  | num : ℚ → JSNum
deriving DecidableEq, Repr

/-- One record of an entry's `consumer` list. -/
structure AmexConsumer where
  submissionCurrencyCode : String
  percentageVariance : Option (Option ℚ)
deriving DecidableEq, Repr

/-- One entry of the Amex response array; `consumer = none` models an
entry without a `consumer` field. -/
structure AmexEntry where
  settlementCurrency : String
  consumer : Option (List AmexConsumer)
deriving DecidableEq, Repr

/-- Embedding of the static `currencyToCountry` table
(src/amex-scraper.js lines 15-52). -/
def currencyToCountry (c : String) : Option String :=
  if c = "EUR" then some "IT"
  else if c = "GBP" then some "UK"
  else if c = "SEK" then some "SE"
  else if c = "DKK" then some "DK"
  else if c = "NOK" then some "NO"
  else if c = "PLN" then some "PL"
  else if c = "CZK" then some "CZ"
  else if c = "HUF" then some "HU"
  else if c ∈ ["USD", "JPY", "CHF", "CAD", "AUD", "NZD", "RON", "BGN",
      "HRK", "RUB", "TRY", "BRL", "CNY", "HKD", "IDR", "ILS", "INR",
      "KRW", "MXN", "MYR", "PHP", "SGD", "THB", "ZAR", "ISK"] then
    some "ICC"
  else none

/-- Market selection `currencyToCountry[base] || 'ICC'`
(src/amex-scraper.js line 77). -/
def amexMarket (base : String) : String :=
  (currencyToCountry base).getD "ICC"

/-- Embedding of the Amex cache key (src/amex-scraper.js lines 54-56):
unlike the Mastercard and Visa keys, it does not include the amount. -/
def getCacheKey (date base quote : String) : String :=
  date ++ "|" ++ base ++ "|" ++ quote

/-- The variance computation applied to a located consumer record
(src/amex-scraper.js lines 153-165 and 175-183): a truthy parseable
variance yields `referenceRate * (1 + variance/100)` (or the division in
the inverted case); a truthy non-numeric variance makes every arithmetic
step NaN, which the source returns as the rate; a falsy/absent variance
falls through to the catch-all and becomes `null`. -/
def amexVarianceRate (ecbRate : ℚ) (needsInversion : Bool)
    (quoteData : AmexConsumer) : Option JSNum :=
  match quoteData.percentageVariance with
  | some (some variance) =>
    some (JSNum.num (if needsInversion then ecbRate / (1 + variance / 100)
      else ecbRate * (1 + variance / 100)))
  | some none => some JSNum.nan
  | none => none

/-- Locate `code` in an entry's consumer list and apply the variance
computation; any missing field falls through to `null`. -/
def amexConsumerLookup (rateData : AmexEntry) (code : String)
    (ecbRate : ℚ) (needsInversion : Bool) : Option JSNum :=
  match rateData.consumer with
  | some consumers =>
    match consumers.find? (fun c => c.submissionCurrencyCode == code) with
    | some quoteData => amexVarianceRate ecbRate needsInversion quoteData
    | none => none
  | none => none

/-- Embedding of `getAmexRateViaPlaywright` (src/amex-scraper.js lines
73-192).  `data = none` models every failure caught by the surrounding
`try` (unreachable provider, non-JSON payload, reference-rate fetch
throw): the catch-all returns `null`.  For the ICC market: search for an
entry whose settlement currency is the normalized base (direct case),
else the normalized quote (inverted case), else return `null`
(unsupported).  For a specific regional market, use the first entry
directly.  The result is `none` for `null`, `some r` for a returned
JavaScript number (possibly NaN).  The `amount` parameter is received but
used only for logging in the source. -/
def getAmexRateViaPlaywright (data : Option (List AmexEntry)) (ecbRate : ℚ)
    (date base quote : String) (amount : ℚ) : Option JSNum :=
  match data with
  | none => none
  | some entries =>
    if entries.length > 0 then
      if amexMarket base = "ICC" then
        let normalizedBase := if base = "EUR" then "EURO" else base
        let normalizedQuote := if quote = "EUR" then "EURO" else quote
        match entries.find? (fun e => e.settlementCurrency == normalizedBase) with
        | some rateData => amexConsumerLookup rateData quote ecbRate false
        | none =>
          match entries.find?
              (fun e => e.settlementCurrency == normalizedQuote) with
          | some rateData => amexConsumerLookup rateData base ecbRate true
          | none => none
      else
        match entries.head? with
        | some rateData => amexConsumerLookup rateData quote ecbRate false
        | none => none
    else none

/-- Embedding of `getAmexRate` (src/amex-scraper.js lines 202-221) for
one cache key: cache hit within TTL returns the stored value; otherwise
the stale entry is deleted, the Playwright helper is invoked, a non-null
result (NaN included) is cached and returned, and a null result is
returned as null — this function never throws.  Returns the result and
the cache entry for the key afterwards. -/
def getAmexRate (now : ℕ) (cacheEntry : Option (JSNum × ℕ))
    (data : Option (List AmexEntry)) (ecbRate : ℚ)
    (date base quote : String) (amount : ℚ) :
    Option JSNum × Option (JSNum × ℕ) :=
  match cacheEntry with
  | some (value, timestamp) =>
    if now - timestamp < CACHE_TTL then (some value, cacheEntry)
    else
      match getAmexRateViaPlaywright data ecbRate date base quote amount with
      | some apiRate => (some apiRate, some (apiRate, now))
      | none => (none, none)
  | none =>
    match getAmexRateViaPlaywright data ecbRate date base quote amount with
    | some apiRate => (some apiRate, some (apiRate, now))
    | none => (none, none)

/-- C3 counterexample: a transport failure (caught exception, `data =
none`) and an Unsupported pair (entries present but neither JPY nor GBP
is a settlement currency) produce the very same observable outcome from
`getAmexRate` — result `null` and no cache entry — so the two conditions
are not distinguishable. -/
theorem amex_unsupported_equals_failure :
    getAmexRate 0 none none 1 "2024-01-02" "JPY" "GBP" 1 = (none, none) ∧
      getAmexRate 0 none (some [⟨"EURO", some []⟩]) 1 "2024-01-02" "JPY" "GBP" 1 =
        (none, none) := by
  constructor
  · rfl
  · rfl

/-- C3 amended: both a transport/parse failure and the Unsupported
outcome surface as `null` from `getAmexRate` (with no cache entry
written), so the caller cannot distinguish them. -/
theorem amex_null_conflated (now : ℕ) (ecbRate : ℚ)
    (date base quote : String) (amount : ℚ) (entries : List AmexEntry)
    (hne : entries ≠ [])
    (hm : amexMarket base = "ICC")
    (hA : entries.find?
      (fun e => e.settlementCurrency ==
        (if base = "EUR" then "EURO" else base)) = none)
    (hB : entries.find?
      (fun e => e.settlementCurrency ==
        (if quote = "EUR" then "EURO" else quote)) = none) :
    getAmexRate now none none ecbRate date base quote amount = (none, none) ∧
      getAmexRate now none (some entries) ecbRate date base quote amount =
        (none, none) := by
  constructor
  · rfl
  · have hlen : 0 < entries.length := List.length_pos.mpr hne
    simp [getAmexRate, getAmexRateViaPlaywright, hlen, hm, hA, hB]

/-- Witness for the amended C3: one entry with settlement currency EURO,
pair JPY to GBP. -/
theorem amex_null_conflated_witness :
    getAmexRate 3 none none 2 "2024-01-03" "JPY" "GBP" 5 = (none, none) ∧
      getAmexRate 3 none (some [⟨"EURO", some []⟩]) 2 "2024-01-03" "JPY" "GBP" 5 =
        (none, none) :=
  amex_null_conflated 3 2 "2024-01-03" "JPY" "GBP" 5 [⟨"EURO", some []⟩]
    (by decide) (by decide) (by decide) (by decide)

/-- C4 counterexample: the settlement-currency search succeeds (entry
USD, pair USD to JPY) and the located variance entry is present but
non-numeric (`parseFloat` NaN); the normalizer then returns NaN as the
rate — and `getAmexRate` caches and returns that NaN — instead of the
Unsupported (`null`) outcome the claim requires. -/
theorem amex_nonnumeric_variance_nan :
    getAmexRateViaPlaywright (some [⟨"USD", some [⟨"JPY", some none⟩]⟩]) 150
        "2024-01-02" "USD" "JPY" 1 = some JSNum.nan ∧
      getAmexRate 0 none (some [⟨"USD", some [⟨"JPY", some none⟩]⟩]) 150
        "2024-01-02" "USD" "JPY" 1 = (some JSNum.nan, some (JSNum.nan, 0)) := by
  constructor
  · rfl
  · rfl

/-- C4 amended: when the settlement-currency search succeeds, a missing
(falsy) variance value yields the Unsupported `null` outcome, but a
present non-numeric variance value yields NaN, which is returned as the
rate and cached. -/
theorem amex_variance_value_cases (ecbRate : ℚ) (date base quote : String)
    (amount : ℚ) (now : ℕ)
    (hm : amexMarket base = "ICC") (hb : base ≠ "EUR") :
    getAmexRateViaPlaywright (some [⟨base, some [⟨quote, none⟩]⟩]) ecbRate
        date base quote amount = none ∧
      getAmexRateViaPlaywright (some [⟨base, some [⟨quote, some none⟩]⟩])
        ecbRate date base quote amount = some JSNum.nan ∧
      getAmexRate now none (some [⟨base, some [⟨quote, some none⟩]⟩]) ecbRate
        date base quote amount = (some JSNum.nan, some (JSNum.nan, now)) := by
  refine ⟨?_, ?_, ?_⟩ <;>
    simp [getAmexRate, getAmexRateViaPlaywright, amexConsumerLookup,
      amexVarianceRate, hm, hb]

/-- Witness for the amended C4 with base USD, quote JPY. -/
theorem amex_variance_value_cases_witness :
    getAmexRateViaPlaywright (some [⟨"USD", some [⟨"JPY", none⟩]⟩]) 150
        "2024-01-02" "USD" "JPY" 1 = none ∧
      getAmexRateViaPlaywright (some [⟨"USD", some [⟨"JPY", some none⟩]⟩]) 150
        "2024-01-02" "USD" "JPY" 1 = some JSNum.nan ∧
      getAmexRate 7 none (some [⟨"USD", some [⟨"JPY", some none⟩]⟩]) 150
        "2024-01-02" "USD" "JPY" 1 = (some JSNum.nan, some (JSNum.nan, 7)) :=
  amex_variance_value_cases 150 "2024-01-02" "USD" "JPY" 1 7
    (by decide) (by decide)

/-- C10: the amount argument never influences the Amex rate — for any two
amounts, both the Playwright helper and the cached lookup (result and
resulting cache entry, whose key omits the amount) are identical. -/
theorem amex_amount_independent (now : ℕ) (cacheEntry : Option (JSNum × ℕ))
    (data : Option (List AmexEntry)) (ecbRate : ℚ)
    (date base quote : String) (a1 a2 : ℚ) :
    getAmexRateViaPlaywright data ecbRate date base quote a1 =
        getAmexRateViaPlaywright data ecbRate date base quote a2 ∧
      getAmexRate now cacheEntry data ecbRate date base quote a1 =
        getAmexRate now cacheEntry data ecbRate date base quote a2 :=
  ⟨rfl, rfl⟩

/-! ## Aggregation facade (`GET /api/rates`)

After validation, the handler awaits `Promise.all` over eight fetches:
the four providers for the requested date and the four for the previous
day.  Only the four yesterday fetches carry `.catch(() => null)`, so a
rejection of today's mid, Mastercard or Visa fetch rejects the whole
`Promise.all` and the outer `catch` answers with a 500; the Amex lookup
never throws (it returns `null`).  The model takes each of today's three
throwing fetch results as `Except Unit ℚ`, today's Amex result as
`Option ℚ`, and the four already-caught yesterday results as `Option ℚ`;
the output is either the JSON payload or `.error ()` for the 500. -/

/-- The JSON payload of a successful `/api/rates` response
(src/frankfurter.js lines 296-320), flattened. -/
structure RatesPayload where
  mid : ℚ
  mc : ℚ
  visa : ℚ
  amex : Option ℚ
  amexUnavailable : Bool
  convertedMid : ℚ
  convertedMc : ℚ
  convertedVisa : ℚ
  convertedAmex : Option ℚ
  mcDeltaPct : ℚ
  visaDeltaPct : ℚ
  amexDeltaPct : Option ℚ
  midDeltaPct : Option ℚ
  mcDayDeltaPct : Option ℚ
  visaDayDeltaPct : Option ℚ
  amexDayDeltaPct : Option ℚ
deriving DecidableEq, Repr

/-- Day-over-day delta `yesterday ? ((today - yesterday) / yesterday) * 100
: null`; a yesterday value of 0 is falsy in JavaScript and also yields
null. -/
def dayDelta (today : ℚ) (yesterdayRate : Option ℚ) : Option ℚ :=
  match yesterdayRate with
  | some y => if y = 0 then none else some ((today - y) / y * 100)
  | none => none

/-- Embedding of the `/api/rates` handler core (src/frankfurter.js lines
266-328): `Promise.all` rejects — and the handler answers 500 — as soon
as one of today's mid, Mastercard or Visa fetches rejects; otherwise the
payload is assembled, with the Amex `null` surfaced through
`amexUnavailable` and nulled-out deltas. -/
def ratesHandler (midR mcR visaR : Except Unit ℚ) (amexR : Option ℚ)
    (midY mcY visaY amexY : Option ℚ) (amount : ℚ) :
    Except Unit RatesPayload :=
  match midR, mcR, visaR with
  | .ok mid, .ok mc, .ok visa =>
    .ok
      { mid := mid
        mc := mc
        visa := visa
        amex := amexR
        amexUnavailable := amexR.isNone
        convertedMid := mid * amount
        convertedMc := mc * amount
        convertedVisa := visa * amount
        convertedAmex := amexR.map (· * amount)
        mcDeltaPct := (mc - mid) / mid * 100
        visaDeltaPct := (visa - mid) / mid * 100
        amexDeltaPct := amexR.map (fun a => (a - mid) / mid * 100)
        midDeltaPct := dayDelta mid midY
        mcDayDeltaPct := dayDelta mc mcY
        visaDayDeltaPct := dayDelta visa visaY
        amexDayDeltaPct :=
          match amexR, amexY with
          | some a, some y => if y = 0 then none else some ((a - y) / y * 100)
          | _, _ => none }
  | _, _, _ => .error ()

/-- C1 counterexample: with the mid fetch for the requested date failing
while Mastercard, Visa and Amex all succeeded (rate 1 each), the
aggregated endpoint answers 500 — the successfully fetched rates of the
other providers are not returned. -/
theorem rates_one_failure_fails_all :
    ratesHandler (.error ()) (.ok 1) (.ok 1) (some 1)
      (some 1) (some 1) (some 1) (some 1) 1 = .error () := rfl

/-- C1 amended: a failure of any of the mid, Mastercard or Visa
single-rate lookups for the requested date fails the whole aggregated
response with a 500; only the Amex lookup (which reports `null` instead
of throwing) and the yesterday lookups cannot fail it, and when all three
succeed the payload carries each provider's rate. -/
theorem rates_failure_propagation :
    (∀ (mcR visaR : Except Unit ℚ) (amexR midY mcY visaY amexY : Option ℚ)
        (amount : ℚ),
      ratesHandler (.error ()) mcR visaR amexR midY mcY visaY amexY amount =
        .error ()) ∧
      (∀ (midR visaR : Except Unit ℚ) (amexR midY mcY visaY amexY : Option ℚ)
          (amount : ℚ),
        ratesHandler midR (.error ()) visaR amexR midY mcY visaY amexY amount =
          .error ()) ∧
      (∀ (midR mcR : Except Unit ℚ) (amexR midY mcY visaY amexY : Option ℚ)
          (amount : ℚ),
        ratesHandler midR mcR (.error ()) amexR midY mcY visaY amexY amount =
          .error ()) ∧
      (∀ (mid mc visa : ℚ) (amexR midY mcY visaY amexY : Option ℚ)
          (amount : ℚ),
        ∃ p, ratesHandler (.ok mid) (.ok mc) (.ok visa) amexR
            midY mcY visaY amexY amount = .ok p ∧
          p.mid = mid ∧ p.mc = mc ∧ p.visa = visa ∧ p.amex = amexR ∧
            p.amexUnavailable = amexR.isNone) := by
  refine ⟨?_, ?_, ?_, ?_⟩
  · intro mcR visaR amexR midY mcY visaY amexY amount
    rfl
  · intro midR visaR amexR midY mcY visaY amexY amount
    cases midR <;> rfl
  · intro midR mcR amexR midY mcY visaY amexY amount
    cases midR <;> cases mcR <;> rfl
  · intro mid mc visa amexR midY mcY visaY amexY amount
    exact ⟨_, rfl, rfl, rfl, rfl, rfl, rfl⟩

end FxAgg
